import Mathlib

/-!
Verification of the session-manager / tool-pipeline core in
src/python/gemini_core.py, as a shallow embedding.

Modelling conventions:
- Python `Dict[str, Any]` values that flow through tool parameters,
  results and schemas are modelled by the JSON-like type `JVal`.
- Fallible Python calls (anything that may raise) are modelled with
  `Except String`, the error being `str(e)`.
- Machine reals 0.8 and 0.3 (the two hardcoded thresholds) are modelled
  as the rationals 4/5 and 3/10.  For every history length n < 10^15 the
  double-precision computation `int(n * 0.3)` agrees with
  `Int.toNat ⌊(n : ℚ) * (3/10)⌋` (the rounding error of the double
  nearest to 0.3 is a relative 2^-54, too small to cross an integer
  boundary), and likewise `token_count < 0.8 * max_tokens` agrees with
  the exact rational comparison; so the rational model is faithful.
- The backend (`MockGeminiAPI` in the source, an external collaborator
  per the architecture) is an arbitrary pair of functions
  `generate_content` / `count_tokens`; theorems quantify over it.
-/

/-- JSON-like Python value (parameters, tool results, schema payloads). -/
inductive JVal where
  | null : JVal
  | bool (b : Bool) : JVal
  | num (n : Int) : JVal
  | str (s : String) : JVal
  | arr (elems : List JVal) : JVal
  | obj (fields : List (String × JVal)) : JVal

/-- One payload fragment of a Content; the module only ever reads or
writes the `text` key of a part dict, so a part is modelled by that
optional key. -/
structure ContentPart where
  text : Option String
  deriving DecidableEq

/-- Content dataclass: one turn of the dialogue (gemini_core.py line 51). -/
structure Content where
  role : String
  parts : List ContentPart
  deriving DecidableEq

/-- Content.from_text classmethod (line 57). -/
def Content.from_text (role : String) (text : String) : Content :=
  { role := role, parts := [{ text := some text }] }

/-- ChatCompressionInfo dataclass (line 63).  The derived ratio field is
called compression_rate here (same field as in the source, renamed). -/
structure ChatCompressionInfo where
  original_token_count : Nat
  new_token_count : Nat
  compression_rate : ℚ
  deriving DecidableEq

/-- Construction of a ChatCompressionInfo, including the derived-field
computation performed by the dataclass post-init hook (lines 70-74). -/
def ChatCompressionInfo.make (original_token_count new_token_count : Nat) :
    ChatCompressionInfo :=
  { original_token_count := original_token_count
    new_token_count := new_token_count
    compression_rate :=
      if original_token_count > 0 then
        (new_token_count : ℚ) / (original_token_count : ℚ)
      else 1 }

/-- ToolCallConfirmationDetails dataclass (line 40). -/
structure ToolCallConfirmationDetails where
  type : String
  title : String
  command : Option String
  server_name : Option String
  tool_name : Option String
  prompt : Option String

/-- A tool: name, metadata, schema payload, and the three overridable
methods of BaseTool (line 77).  Each method may raise, hence `Except`. -/
structure BaseTool where
  name : String
  display_name : String
  description : String
  parameter_schema : JVal
  is_output_markdown : Bool
  can_update_output : Bool
  validate_tool_params : JVal → Except String (Option String)
  should_confirm_execute : JVal → Except String (Option ToolCallConfirmationDetails)
  execute : JVal → Except String JVal

/-- Default BaseTool.validate_tool_params (line 107): params must be a
dict, otherwise an error string is returned. -/
def default_validate_tool_params (params : JVal) : Except String (Option String) :=
  match params with
  | .obj _ => .ok none
  | _ => .ok (some "Parameters must be a dictionary")

/-- Default BaseTool.should_confirm_execute (line 123): returns False,
i.e. no confirmation needed. -/
def default_should_confirm_execute (_params : JVal) :
    Except String (Option ToolCallConfirmationDetails) :=
  .ok none

/-- The function-declaration dict produced by the BaseTool.schema
property (line 98). -/
structure FunctionDeclaration where
  name : String
  description : String
  parameters : JVal

/-- BaseTool.schema property (lines 98-105). -/
def BaseTool.schema (t : BaseTool) : FunctionDeclaration :=
  { name := t.name, description := t.description, parameters := t.parameter_schema }

/-- The registry mapping is a Python dict from tool name to tool;
modelled as an association list with dict insertion-order semantics. -/
abbrev ToolRegistry := List (String × BaseTool)

/-- Python dict lookup `self.tools.get(name)` (line 163). -/
def ToolRegistry.get_tool : ToolRegistry → String → Option BaseTool
  | [], _ => none
  | (k, v) :: rest, n => if k = n then some v else ToolRegistry.get_tool rest n

/-- Python dict assignment `self.tools[name] = tool`: replaces the value
in place when the key is present (keeping its position), otherwise
appends at the end (dicts preserve insertion order). -/
def dict_set : ToolRegistry → String → BaseTool → ToolRegistry
  | [], n, v => [(n, v)]
  | (k, w) :: rest, n, v =>
      if k = n then (n, v) :: rest else (k, w) :: dict_set rest n v

/-- ToolRegistry.register_tool (lines 155-159).  The Bool records
whether the overwrite warning was printed (the `if self.tools.get(...)`
truthiness test; tool objects are always truthy). -/
def ToolRegistry.register_tool (reg : ToolRegistry) (tool : BaseTool) :
    ToolRegistry × Bool :=
  (dict_set reg tool.name tool, (ToolRegistry.get_tool reg tool.name).isSome)

/-- ToolRegistry.get_function_declarations (lines 165-167): one schema
per registered tool, in dict (= registration) order. -/
def get_function_declarations (reg : ToolRegistry) : List FunctionDeclaration :=
  reg.map (fun p => BaseTool.schema p.2)

/-- ToolRegistry.get_all_tools (lines 169-171). -/
def get_all_tools (reg : ToolRegistry) : List BaseTool :=
  reg.map (fun p => p.2)

/-- A tool-call request dict from the backend.  The claims only concern
calls that do contain the mandatory name key; the parameters key is
optional (`tool_call.get('parameters', {})`, line 405). -/
structure ToolCall where
  name : String
  parameters : Option JVal

/-- `tool_call.get('parameters', {})` (line 405). -/
def ToolCall.get_parameters (c : ToolCall) : JVal :=
  c.parameters.getD (JVal.obj [])

/-- The result dict built by `_execute_tool_call`: always a `tool_name`
key plus, depending on the branch, a `result` or an `error` key.  Both
optional fields are modelled separately so that the exactly-one-of-them
property is not true by construction. -/
structure ToolResultDict where
  tool_name : String
  result : Option JVal
  error : Option String

/-- GeminiClient._execute_tool_call (lines 402-441), the tool invocation
pipeline.  Note where the source places its `try`: only the
`tool.execute` call (lines 430-441) is inside it, so exceptions raised
by `validate_tool_params` (line 415) or `should_confirm_execute`
(line 423) propagate to the caller, while exceptions from `execute` are
converted to an error dict.  The confirmation verdict only drives
printing (lines 424-428) and never changes the result. -/
def execute_tool_call (reg : ToolRegistry) (tool_call : ToolCall) :
    Except String ToolResultDict :=
  let tool_name := tool_call.name
  let tool_params := ToolCall.get_parameters tool_call
  match ToolRegistry.get_tool reg tool_name with
  | none =>
      .ok { tool_name := tool_name, result := none
            error := some ("Tool \x27" ++ tool_name ++ "\x27 not found") }
  | some tool =>
    match tool.validate_tool_params tool_params with
    | .error e => .error e
    | .ok (some validation_error) =>
        .ok { tool_name := tool_name, result := none
              error := some ("Parameter validation failed: " ++ validation_error) }
    | .ok none =>
      match tool.should_confirm_execute tool_params with
      | .error e => .error e
      | .ok _confirmation =>
        match tool.execute tool_params with
        | .ok result => .ok { tool_name := tool_name, result := some result, error := none }
        | .error e => .ok { tool_name := tool_name, result := none, error := some e }

/-- The sequential tool-call loop of send_message (lines 381-384): each
call is invoked in listed order and its result appended; a raised
exception aborts the loop (and `send_message` with it). -/
def run_tool_calls (reg : ToolRegistry) : List ToolCall → Except String (List ToolResultDict)
  | [] => .ok []
  | c :: cs => do
      let r ← execute_tool_call reg c
      let rs ← run_tool_calls reg cs
      .ok (r :: rs)

/-- JSON string quoting used by the serialization model (escaping of
special characters inside the string is not modelled; no claim depends
on it). -/
def render_string (s : String) : String :=
  "\x22" ++ s ++ "\x22"

mutual

/-- Rendering of a JVal, modelling `json.dumps` up to whitespace. -/
def JVal.render : JVal → String
  | .null => "null"
  | .bool b => if b then "true" else "false"
  | .num n => toString n
  | .str s => render_string s
  | .arr elems => "[" ++ JVal.render_elems elems ++ "]"
  | .obj fields => "\x7b" ++ JVal.render_fields fields ++ "\x7d"

/-- Rendering of a JSON array body. -/
def JVal.render_elems : List JVal → String
  | [] => ""
  | [v] => JVal.render v
  | v :: vs => JVal.render v ++ ", " ++ JVal.render_elems vs

/-- Rendering of a JSON object body. -/
def JVal.render_fields : List (String × JVal) → String
  | [] => ""
  | [(k, v)] => render_string k ++ ": " ++ JVal.render v
  | (k, v) :: fs => render_string k ++ ": " ++ JVal.render v ++ ", " ++ JVal.render_fields fs

end

/-- Rendering of one result dict (keys in insertion order, matching the
dict literals of lines 409-440). -/
def ToolResultDict.render (r : ToolResultDict) : String :=
  "\x7b" ++ render_string "tool_name" ++ ": " ++ render_string r.tool_name ++
    (match r.result with
     | some v => ", " ++ render_string "result" ++ ": " ++ JVal.render v
     | none => "") ++
    (match r.error with
     | some e => ", " ++ render_string "error" ++ ": " ++ render_string e
     | none => "") ++ "\x7d"

/-- `json.dumps(tool_results)` (line 387), up to whitespace. -/
def dumps_tool_results (rs : List ToolResultDict) : String :=
  "[" ++ String.intercalate ", " (rs.map ToolResultDict.render) ++ "]"

/-- PromptManager.get_core_system_prompt (lines 186-210); the base text
is abbreviated to its first line, which no claim inspects. -/
def get_core_system_prompt (user_memory : Option String) : String :=
  let base_prompt := "You are a helpful AI assistant with access to various tools. \n\n# Operational Guidelines\n"
  match user_memory with
  | some memory => base_prompt ++ "\n\n# User Context\n" ++ memory
  | none => base_prompt

/-- PromptManager.get_compression_prompt (lines 212-225); abbreviated to
its first line, which no claim inspects. -/
def get_compression_prompt : String :=
  "Please create a concise summary of the conversation history so far.\n"

/-- Config dataclass (lines 228-247).  The two compression fields exist
on Config but are never consulted by GeminiClient, which hardcodes its
own thresholds (lines 336-337). -/
structure Config where
  api_key : Option String
  model : String
  max_tokens : Nat
  compression_threshold : ℚ
  compression_preserve_threshold : ℚ
  user_memory : Option String

/-- A backend response dict: optional `text` key and optional
`tool_calls` key (the code tests for key presence, line 379). -/
structure Response where
  text : Option String
  tool_calls : Option (List ToolCall)

/-- The backend collaborator: `generate_content(contents, tools,
system_instruction)` and `count_tokens(contents)`.  The `tools`
argument is the function-declaration list (the source wraps it in a
one-element list of dicts, line 369; the wrapper is flattened here). -/
structure Backend where
  generate_content : List Content → Option (List FunctionDeclaration) → Option String → Response
  count_tokens : List Content → Nat

/-- GeminiClient state: its history plus its tool registry (lines
331-341).  The two thresholds the source stores as instance attributes
in __init__ (0.8 and 0.3, lines 336-337) are never reassigned anywhere,
so they are modelled as the fixed constants they are, inlined at their
two use sites. -/
structure GeminiClient where
  history : List Content
  tool_registry : ToolRegistry

/-- GeminiClient.__init__ (lines 331-341): empty registry and a single
system turn built from the core prompt. -/
def GeminiClient.init (config : Config) : GeminiClient :=
  { history := [Content.from_text "system" (get_core_system_prompt config.user_memory)]
    tool_registry := [] }

/-- GeminiClient._format_history_for_summary (lines 505-516). -/
def format_history_for_summary (history : List Content) : String :=
  String.intercalate "\n"
    (history.filterMap (fun content =>
      let text_parts := content.parts.filterMap (fun part => ContentPart.text part)
      if text_parts.isEmpty then none
      else some (content.role.toUpper ++ ": " ++ String.intercalate " " text_parts)))

/-- GeminiClient.try_compress_chat (lines 456-503).  The `force`
parameter is accepted but the body never reads it (there is no
token-threshold logic in this method; that lives in
`_check_and_compress_if_needed`).  `int(len(self.history) * 0.3)` is
modelled as `3 * len / 10`, the exact value of the rational floor
`Int.toNat ⌊(len : ℚ) * (3/10)⌋` (lemma toNat_floor_mul_three_tenths
below) and of the double-precision original, see the header note. -/
def try_compress_chat (be : Backend) (st : GeminiClient) (force : Bool) :
    Option ChatCompressionInfo × GeminiClient :=
  let _ := force
  if st.history.length < 2 then (none, st)
  else
    let original_token_count := be.count_tokens st.history
    let preserve_count := max 2 (3 * st.history.length / 10)
    let split_index := st.history.length - preserve_count
    let history_to_compress := st.history.take split_index
    let history_to_keep := st.history.drop split_index
    if history_to_compress.length < 2 then (none, st)
    else
      let summary_prompt :=
        "Please summarize this conversation history:\n\n" ++
          format_history_for_summary history_to_compress ++ "\n\n" ++
          get_compression_prompt
      let summary_response :=
        be.generate_content [Content.from_text "user" summary_prompt] none none
      let summary := summary_response.text.getD "Summary not available"
      let new_history :=
        st.history.headD (Content.from_text "system" "") ::
          Content.from_text "user" ("Previous conversation summary: " ++ summary) ::
          Content.from_text "model" "Got it. Thanks for the additional context!" ::
          history_to_keep
      let new_token_count := be.count_tokens new_history
      (some (ChatCompressionInfo.make original_token_count new_token_count),
       { st with history := new_history })

/-- GeminiClient._check_and_compress_if_needed (lines 443-454): the
5-entry gate and the token-threshold gate guard the automatic path
only.  `token_count < 0.8 * max_tokens` is modelled by the exact
rational comparison `5 * token_count < 4 * max_tokens` (exact for the
double 0.8 as well, see the header note). -/
def check_and_compress_if_needed (be : Backend) (config : Config) (st : GeminiClient) :
    Option ChatCompressionInfo × GeminiClient :=
  if st.history.length < 5 then (none, st)
  else
    let token_count := be.count_tokens st.history
    if 5 * token_count < 4 * config.max_tokens then (none, st)
    else try_compress_chat be st false

/-- GeminiClient.send_message (lines 356-400).  The returned Except is
the Python return/raise distinction; the state is returned in both
cases and reflects the mutations performed before any raise (the user
append and the compression, which happen before the tool loop). -/
def send_message (be : Backend) (config : Config) (st : GeminiClient) (message : String) :
    Except String String × GeminiClient :=
  let st1 := { st with history := st.history ++ [Content.from_text "user" message] }
  let st2 := (check_and_compress_if_needed be config st1).2
  let tools := get_function_declarations st2.tool_registry
  let tool_config := if tools.isEmpty then none else some tools
  let response :=
    be.generate_content st2.history tool_config
      (some (get_core_system_prompt config.user_memory))
  match response.tool_calls with
  | some calls =>
    match run_tool_calls st2.tool_registry calls with
    | .error e => (.error e, st2)
    | .ok tool_results =>
      let st3 :=
        { st2 with history :=
            st2.history ++ [Content.from_text "function" (dumps_tool_results tool_results)] }
      let final_response := be.generate_content st3.history none none
      let response_text := final_response.text.getD "Tool execution completed."
      (.ok response_text,
       { st3 with history := st3.history ++ [Content.from_text "model" response_text] })
  | none =>
    let response_text := response.text.getD "No response generated."
    (.ok response_text,
     { st2 with history := st2.history ++ [Content.from_text "model" response_text] })

/-- GeminiClient.reset_chat (lines 351-354). -/
def reset_chat (config : Config) (st : GeminiClient) : GeminiClient :=
  { st with history := [Content.from_text "system" (get_core_system_prompt config.user_memory)] }

/-- Heap model for the reference semantics of GeminiClient.get_history
(lines 343-345, `return self.history.copy()`).  Python objects live on
a heap: `contents` maps content addresses to Content values and `lists`
maps list addresses to sequences of content addresses.  A Python
`list.copy()` is shallow — a fresh list object holding the same element
references. -/
structure PyHeap where
  contents : List Content
  lists : List (List Nat)
  deriving DecidableEq

/-- Dereference a list address. -/
def PyHeap.get_list (h : PyHeap) (a : Nat) : List Nat :=
  h.lists.getD a []

/-- Dereference a content address. -/
def PyHeap.get_content (h : PyHeap) (a : Nat) : Content :=
  h.contents.getD a { role := "", parts := [] }

/-- GeminiClient.get_history (lines 343-345): allocate a fresh list
object whose elements are the same content addresses as the live
history list (shallow copy), and return its address. -/
def get_history (h : PyHeap) (history_addr : Nat) : PyHeap × Nat :=
  ({ h with lists := h.lists ++ [h.get_list history_addr] }, h.lists.length)

/-- The history as the session manager observes it: the Content values
reached through its list object. -/
def view_history (h : PyHeap) (a : Nat) : List Content :=
  (h.get_list a).map h.get_content

/-- A caller-side mutation of a list object (e.g. append, remove,
reorder — any rebinding of the list contents at that address). -/
def set_list (h : PyHeap) (a : Nat) (v : List Nat) : PyHeap :=
  { h with lists := h.lists.set a v }

/-- A caller-side mutation of a Content object (e.g. assigning into its
`parts`), visible through every reference to that object. -/
def set_content (h : PyHeap) (a : Nat) (c : Content) : PyHeap :=
  { h with contents := h.contents.set a c }

/-- States reachable from a freshly initialised client through the
operations the claims range over: message sending, compression
(automatic or forced), chat reset and tool registration. -/
inductive Reachable (be : Backend) (config : Config) : GeminiClient → Prop where
  | init : Reachable be config (GeminiClient.init config)
  | send (st : GeminiClient) (message : String) :
      Reachable be config st → Reachable be config (send_message be config st message).2
  | compress (st : GeminiClient) (force : Bool) :
      Reachable be config st → Reachable be config (try_compress_chat be st force).2
  | auto_compress (st : GeminiClient) :
      Reachable be config st → Reachable be config (check_and_compress_if_needed be config st).2
  | reset (st : GeminiClient) :
      Reachable be config st → Reachable be config (reset_chat config st)
  | register (st : GeminiClient) (tool : BaseTool) :
      Reachable be config st →
      Reachable be config
        { st with tool_registry := (ToolRegistry.register_tool st.tool_registry tool).1 }

/-- The history invariant: the history is non-empty and its first entry
has role system. -/
def system_head (st : GeminiClient) : Prop :=
  st.history.head?.map Content.role = some "system"

/-- A concrete conformant backend used for witnesses: constant text
responses and a character-count/4 token estimate (like the mock API,
lines 309-318). -/
def testBackend : Backend :=
  { generate_content := fun _ _ _ => { text := some "ok", tool_calls := none }
    count_tokens := fun history =>
      (history.map (fun c =>
        ((c.parts.filterMap (fun p => ContentPart.text p)).map String.length).sum)).sum / 4 }

/-- A concrete configuration used for witnesses. -/
def testConfig : Config :=
  { api_key := some "test-key", model := "gemini-pro", max_tokens := 2000
    compression_threshold := 4/5, compression_preserve_threshold := 3/10
    user_memory := none }

/-- A concrete 4-entry history state (system, user, model, user). -/
def st4 : GeminiClient :=
  { history :=
      [Content.from_text "system" "sys prompt"
       , Content.from_text "user" "first question"
       , Content.from_text "model" "first answer"
       , Content.from_text "user" "second question"]
    tool_registry := [] }

/-- A concrete 3-entry history state (compression target too short). -/
def st3 : GeminiClient :=
  { history :=
      [Content.from_text "system" "sys prompt"
       , Content.from_text "user" "first question"
       , Content.from_text "model" "first answer"]
    tool_registry := [] }

/-- A tool whose execute method raises. -/
def tool_fail : BaseTool :=
  { name := "fail_tool", display_name := "Fail", description := "always raises"
    parameter_schema := JVal.obj [], is_output_markdown := true, can_update_output := false
    validate_tool_params := default_validate_tool_params
    should_confirm_execute := default_should_confirm_execute
    execute := fun _ => .error "kaboom" }

/-- A tool whose execute method succeeds. -/
def tool_ok : BaseTool :=
  { name := "ok_tool", display_name := "Ok", description := "always succeeds"
    parameter_schema := JVal.obj [("type", JVal.str "object")]
    is_output_markdown := true, can_update_output := false
    validate_tool_params := default_validate_tool_params
    should_confirm_execute := default_should_confirm_execute
    execute := fun _ => .ok (JVal.str "done") }

/-- A second tool carrying the same name as tool_ok, for the overwrite
case of registration. -/
def tool_ok2 : BaseTool :=
  { name := "ok_tool", display_name := "Ok v2", description := "replacement"
    parameter_schema := JVal.obj [], is_output_markdown := true, can_update_output := false
    validate_tool_params := default_validate_tool_params
    should_confirm_execute := default_should_confirm_execute
    execute := fun _ => .ok (JVal.str "done again") }

/-- A tool whose validator rejects every parameter set. -/
def tool_reject : BaseTool :=
  { name := "reject_tool", display_name := "Reject", description := "never valid"
    parameter_schema := JVal.obj [], is_output_markdown := true, can_update_output := false
    validate_tool_params := fun _ => .ok (some "bad params")
    should_confirm_execute := default_should_confirm_execute
    execute := fun _ => .ok (JVal.num 42) }

/-- A tool whose validator itself raises. -/
def tool_boom : BaseTool :=
  { name := "boom_tool", display_name := "Boom", description := "validator raises"
    parameter_schema := JVal.obj [], is_output_markdown := true, can_update_output := false
    validate_tool_params := fun _ => .error "validator crashed"
    should_confirm_execute := default_should_confirm_execute
    execute := fun _ => .ok JVal.null }

/-- A registry holding the failing, succeeding, rejecting and
validator-raising tools. -/
def testRegistry : ToolRegistry :=
  [("fail_tool", tool_fail), ("ok_tool", tool_ok)
   , ("reject_tool", tool_reject), ("boom_tool", tool_boom)]

/-- Concrete calls against testRegistry. -/
def call_fail : ToolCall := { name := "fail_tool", parameters := none }

/-- Call to the succeeding tool. -/
def call_ok : ToolCall := { name := "ok_tool", parameters := some (JVal.obj []) }

/-- Call naming a tool absent from the registry. -/
def call_missing : ToolCall := { name := "ghost_tool", parameters := none }

/-- Call to the tool whose validator rejects. -/
def call_reject : ToolCall := { name := "reject_tool", parameters := none }

/-- Call to the tool whose validator raises. -/
def call_boom : ToolCall := { name := "boom_tool", parameters := none }

/-- Concrete heap: the live history list object at address 0 holds the
single system turn stored at content address 0. -/
def heap0 : PyHeap :=
  { contents := [{ role := "system", parts := [{ text := some "prompt" }] }]
    lists := [[0]] }

/-- The system turn after a caller assigns into its parts. -/
def mutated_system_turn : Content :=
  { role := "system", parts := [{ text := some "mutated" }] }

/-- Compression output on st4 (first component, which is `some`). -/
def info4 : ChatCompressionInfo :=
  ((try_compress_chat testBackend st4 false).1).getD (ChatCompressionInfo.make 0 0)

/-- Compression output on st4 (resulting state). -/
def st4c : GeminiClient :=
  (try_compress_chat testBackend st4 false).2

/-- Bridge between the preserve-count expression of the source
(`int(len * 0.3)`, modelled as 3 * len / 10) and the exact-rational
floor formula of the specification. -/
theorem toNat_floor_mul_three_tenths (n : ℕ) :
    Int.toNat ⌊(n : ℚ) * (3/10)⌋ = 3 * n / 10 := by
  have h : (n : ℚ) * (3/10) = ((3 * n : ℤ) : ℚ) / ((10 : ℕ) : ℚ) := by
    push_cast
    ring
  rw [h, Rat.floor_intCast_div_natCast]
  omega

/-- Inversion of a firing compression pass: the guards passed, and the
output state and info have the rebuilt shape of lines 490-503. -/
theorem try_compress_chat_fires_inv {be : Backend} {st : GeminiClient} {force : Bool}
    {info : ChatCompressionInfo} {st' : GeminiClient}
    (h : try_compress_chat be st force = (some info, st')) :
    ∃ summary,
      2 ≤ (st.history.take (st.history.length -
            max 2 (3 * st.history.length / 10))).length ∧
      st'.history =
        st.history.headD (Content.from_text "system" "") ::
          Content.from_text "user" ("Previous conversation summary: " ++ summary) ::
          Content.from_text "model" "Got it. Thanks for the additional context!" ::
          st.history.drop (st.history.length -
            max 2 (3 * st.history.length / 10)) ∧
      st'.tool_registry = st.tool_registry ∧
      info = ChatCompressionInfo.make (be.count_tokens st.history) (be.count_tokens st'.history) := by
  simp only [try_compress_chat] at h
  split at h
  · simp at h
  · split at h
    · simp at h
    · rename_i hlen2 htake
      rw [Prod.mk.injEq] at h
      obtain ⟨hi, hs⟩ := h
      subst hs
      exact ⟨_, by omega, rfl, rfl, (Option.some.inj hi).symm⟩

/-- C5: when compression fires on a history of length n, the split point
is preserveCount = max(2, floor(n * preserveFraction)) and splitIndex =
n - preserveCount, and the rebuilt history is exactly the original
entry at index 0, a synthetic user turn stating the summary, a
synthetic model acknowledgment turn, then the preserved suffix
history[splitIndex:] unchanged and in order, so the new length is
preserveCount + 3. -/
theorem compress_rebuild (be : Backend) (st : GeminiClient) (force : Bool)
    (info : ChatCompressionInfo) (st' : GeminiClient)
    (h : try_compress_chat be st force = (some info, st')) :
    ∃ c0 summary,
      st.history.head? = some c0 ∧
      st'.history =
        c0 :: Content.from_text "user" ("Previous conversation summary: " ++ summary) ::
          Content.from_text "model" "Got it. Thanks for the additional context!" ::
          st.history.drop (st.history.length -
            max 2 (Int.toNat ⌊(st.history.length : ℚ) * (3/10)⌋)) ∧
      st'.history.length =
        max 2 (Int.toNat ⌊(st.history.length : ℚ) * (3/10)⌋) + 3 := by
  rw [toNat_floor_mul_three_tenths]
  obtain ⟨summary, hlen2, hhist, hreg, hinfo⟩ := try_compress_chat_fires_inv h
  rw [List.length_take] at hlen2
  have hne : st.history ≠ [] := by
    intro he
    rw [he] at hlen2
    simp at hlen2
  refine ⟨st.history.headD (Content.from_text "system" ""), summary, ?_, hhist, ?_⟩
  · cases hl : st.history with
    | nil => exact absurd hl hne
    | cons a l => simp [hl]
  · rw [hhist]
    simp only [List.length_cons, List.length_drop]
    omega

/-- C5 witness: the rebuilt-history shape evaluated on the concrete
4-entry state st4. -/
theorem compress_rebuild_witness :
    ∃ c0 summary,
      st4.history.head? = some c0 ∧
      st4c.history =
        c0 :: Content.from_text "user" ("Previous conversation summary: " ++ summary) ::
          Content.from_text "model" "Got it. Thanks for the additional context!" ::
          st4.history.drop (st4.history.length -
            max 2 (Int.toNat ⌊(st4.history.length : ℚ) * (3/10)⌋)) ∧
      st4c.history.length =
        max 2 (Int.toNat ⌊(st4.history.length : ℚ) * (3/10)⌋) + 3 :=
  compress_rebuild testBackend st4 false info4 st4c rfl

/-- C7: any CompressionInfo a compression pass returns satisfies
ratio = new/original when original > 0 and ratio = 1 otherwise. -/
theorem compress_ratio_eq (be : Backend) (st : GeminiClient) (force : Bool)
    (info : ChatCompressionInfo) (st' : GeminiClient)
    (h : try_compress_chat be st force = (some info, st')) :
    info.compression_rate =
      if 0 < info.original_token_count then
        (info.new_token_count : ℚ) / (info.original_token_count : ℚ)
      else 1 := by
  obtain ⟨summary, _, _, _, hinfo⟩ := try_compress_chat_fires_inv h
  subst hinfo
  simp [ChatCompressionInfo.make]

/-- C7 witness: the ratio formula evaluated on the concrete compression
pass over st4, whose original token count is positive. -/
theorem compress_ratio_eq_witness :
    0 < info4.original_token_count ∧
    info4.compression_rate =
      if 0 < info4.original_token_count then
        (info4.new_token_count : ℚ) / (info4.original_token_count : ℚ)
      else 1 :=
  ⟨by decide, compress_ratio_eq testBackend st4 false info4 st4c rfl⟩

/-- C3 counterexample: on the concrete 4-entry history st4 (shorter
than 5 entries), a forced try_compress_chat does compress instead of
returning none, because the 5-entry gate lives only in the automatic
path _check_and_compress_if_needed. -/
theorem forced_compress_fires_below_five_entries :
    st4.history.length < 5 ∧ ((try_compress_chat testBackend st4 true).1).isSome = true :=
  ⟨by decide, rfl⟩

/-- C3 amended: try_compress_chat contains no token-threshold check at
all (force is accepted and ignored, so forcing trivially bypasses the
threshold); it returns none (leaving the state unchanged) when the
history has fewer than 2 entries or the compression target has fewer
than 2 entries; the 5-entry minimum applies only to the automatic
compression path. -/
theorem forced_compress_gates (be : Backend) (config : Config) (st : GeminiClient) :
    (try_compress_chat be st true = try_compress_chat be st false) ∧
    (st.history.length < 2 → try_compress_chat be st true = (none, st)) ∧
    ((st.history.take (st.history.length - max 2 (3 * st.history.length / 10))).length < 2 →
        try_compress_chat be st true = (none, st)) ∧
    (st.history.length < 5 → check_and_compress_if_needed be config st = (none, st)) := by
  refine ⟨rfl, ?_, ?_, ?_⟩
  · intro h
    simp [try_compress_chat, h]
  · intro h
    by_cases h2 : st.history.length < 2
    · simp only [try_compress_chat]
      rw [if_pos h2]
    · simp only [try_compress_chat]
      rw [if_neg h2, if_pos h]
  · intro h
    simp [check_and_compress_if_needed, h]

/-- C3 amended witness: on the 3-entry state st3 the compression target
has a single entry, so a forced compression returns none; on the
4-entry state st4 the automatic path returns none. -/
theorem forced_compress_gates_witness :
    try_compress_chat testBackend st3 true = (none, st3) ∧
    check_and_compress_if_needed testBackend testConfig st4 = (none, st4) :=
  ⟨(forced_compress_gates testBackend testConfig st3).2.2.1 (by decide),
   (forced_compress_gates testBackend testConfig st4).2.2.2 (by decide)⟩

/-- C10: whenever the invocation step returns a result dict, it carries
the tool_name field equal to the call's name and exactly one of the
result and error fields. -/
theorem tool_result_dict_shape (reg : ToolRegistry) (tool_call : ToolCall)
    (r : ToolResultDict) (h : execute_tool_call reg tool_call = .ok r) :
    r.tool_name = tool_call.name ∧
      ((r.result.isSome = true ∧ r.error = none) ∨
        (r.result = none ∧ r.error.isSome = true)) := by
  simp only [execute_tool_call] at h
  cases hg : ToolRegistry.get_tool reg tool_call.name with
  | none =>
    simp only [hg] at h
    cases h
    simp
  | some tool =>
    simp only [hg] at h
    cases hv : tool.validate_tool_params (ToolCall.get_parameters tool_call) with
    | error e =>
      simp only [hv] at h
      exact Except.noConfusion h
    | ok v =>
      simp only [hv] at h
      cases v with
      | some reason =>
        simp only at h
        cases h
        simp
      | none =>
        simp only at h
        cases hc : tool.should_confirm_execute (ToolCall.get_parameters tool_call) with
        | error e =>
          simp only [hc] at h
          exact Except.noConfusion h
        | ok conf =>
          simp only [hc] at h
          cases he : tool.execute (ToolCall.get_parameters tool_call) with
          | error e =>
            simp only [he] at h
            cases h
            simp
          | ok result =>
            simp only [he] at h
            cases h
            simp

/-- C10 witness: the shape property evaluated on the concrete successful
call against testRegistry. -/
theorem tool_result_dict_shape_witness :
    { tool_name := "ok_tool", result := some (JVal.str "done")
      , error := none : ToolResultDict }.tool_name = call_ok.name ∧
      ((({ tool_name := "ok_tool", result := some (JVal.str "done")
           , error := none : ToolResultDict }).result.isSome = true ∧
         ({ tool_name := "ok_tool", result := some (JVal.str "done")
            , error := none : ToolResultDict }).error = none) ∨
        (({ tool_name := "ok_tool", result := some (JVal.str "done")
            , error := none : ToolResultDict }).result = none ∧
         ({ tool_name := "ok_tool", result := some (JVal.str "done")
            , error := none : ToolResultDict }).error.isSome = true)) :=
  tool_result_dict_shape testRegistry call_ok _ rfl

/-- C4: when the tool's validator returns a non-null reason, the
pipeline answers with a ToolResult error embedding that reason; the
statement holds for every tool with that validator behaviour whatever
its execute function is, so execute is never invoked. -/
theorem validation_short_circuits (reg : ToolRegistry) (tool_call : ToolCall)
    (tool : BaseTool) (reason : String)
    (h1 : ToolRegistry.get_tool reg tool_call.name = some tool)
    (h2 : tool.validate_tool_params (ToolCall.get_parameters tool_call) = .ok (some reason)) :
    execute_tool_call reg tool_call =
      .ok { tool_name := tool_call.name, result := none
            error := some ("Parameter validation failed: " ++ reason) } := by
  simp only [execute_tool_call, h1, h2]

/-- C4 witness: the short-circuit evaluated on the concrete rejecting
tool (whose execute would return 42 were it ever invoked). -/
theorem validation_short_circuits_witness :
    execute_tool_call testRegistry call_reject =
      .ok { tool_name := call_reject.name, result := none
            error := some ("Parameter validation failed: " ++ "bad params") } :=
  validation_short_circuits testRegistry call_reject tool_reject "bad params" rfl rfl

/-- C2 counterexample: a validator that raises makes the pipeline
propagate the exception to its caller instead of converting it to a
ToolResult error, refuting the never-propagates contract for
validation. -/
theorem pipeline_propagates_validator_exception :
    execute_tool_call testRegistry call_boom = .error "validator crashed" := rfl

/-- C2 amended: only exceptions raised by the tool's execute method are
caught and converted into a result dict carrying the tool name and the
exception message; exceptions raised by the validator or the
confirmation gate propagate out of the pipeline. -/
theorem execute_exception_caught (reg : ToolRegistry) (tool_call : ToolCall)
    (tool : BaseTool)
    (h1 : ToolRegistry.get_tool reg tool_call.name = some tool) :
    (∀ e, tool.validate_tool_params (ToolCall.get_parameters tool_call) = .error e →
        execute_tool_call reg tool_call = .error e) ∧
    (∀ e, tool.validate_tool_params (ToolCall.get_parameters tool_call) = .ok none →
        tool.should_confirm_execute (ToolCall.get_parameters tool_call) = .error e →
        execute_tool_call reg tool_call = .error e) ∧
    (∀ conf e, tool.validate_tool_params (ToolCall.get_parameters tool_call) = .ok none →
        tool.should_confirm_execute (ToolCall.get_parameters tool_call) = .ok conf →
        tool.execute (ToolCall.get_parameters tool_call) = .error e →
        execute_tool_call reg tool_call =
          .ok { tool_name := tool_call.name, result := none, error := some e }) := by
  refine ⟨?_, ?_, ?_⟩ <;> intros <;> simp only [execute_tool_call, h1, *]

/-- C2 amended witness: on the concrete failing tool, the raised
execute exception is returned as an error dict with the tool name. -/
theorem execute_exception_caught_witness :
    execute_tool_call testRegistry call_fail =
      .ok { tool_name := call_fail.name, result := none, error := some "kaboom" } :=
  (execute_exception_caught testRegistry call_fail tool_fail rfl).2.2 none "kaboom" rfl rfl rfl

/-- When the tool named by a call has a non-raising validator and
confirmation gate (or the tool is absent altogether), the invocation
step returns a result dict — whatever execute does. -/
theorem execute_tool_call_total (reg : ToolRegistry) (c : ToolCall)
    (hv : ∀ t, ToolRegistry.get_tool reg c.name = some t →
        (∃ v, t.validate_tool_params (ToolCall.get_parameters c) = .ok v) ∧
        (∃ cf, t.should_confirm_execute (ToolCall.get_parameters c) = .ok cf)) :
    ∃ r, execute_tool_call reg c = .ok r := by
  simp only [execute_tool_call]
  cases hg : ToolRegistry.get_tool reg c.name with
  | none => exact ⟨_, rfl⟩
  | some t =>
    obtain ⟨⟨v, hval⟩, ⟨cf, hcf⟩⟩ := hv t hg
    cases v with
    | some reason => simp only [hval]; exact ⟨_, rfl⟩
    | none =>
      simp only [hval, hcf]
      cases he : t.execute (ToolCall.get_parameters c) with
      | ok res => simp only [he]; exact ⟨_, rfl⟩
      | error e => simp only [he]; exact ⟨_, rfl⟩

/-- C6: provided no validator or confirmation gate raises, the loop
runs every listed call in order and returns one result per call
(List.Forall₂ ties the i-th result to the i-th call); a call naming an
unregistered tool yields an error dict identifying that tool without
raising; and because each result independently carries success or
error, one call's failure (a caught execute exception, a rejected
validation, or a missing tool) never prevents the remaining calls from
being invoked or the loop from completing. -/
theorem tool_calls_sequential_isolated (reg : ToolRegistry) (calls : List ToolCall)
    (hsafe : ∀ c ∈ calls, ∀ t, ToolRegistry.get_tool reg c.name = some t →
        (∃ v, t.validate_tool_params (ToolCall.get_parameters c) = .ok v) ∧
        (∃ cf, t.should_confirm_execute (ToolCall.get_parameters c) = .ok cf)) :
    (∃ results, run_tool_calls reg calls = .ok results ∧
        List.Forall₂ (fun c r => execute_tool_call reg c = .ok r) calls results) ∧
    (∀ c ∈ calls, ToolRegistry.get_tool reg c.name = none →
        execute_tool_call reg c =
          .ok { tool_name := c.name, result := none
                error := some ("Tool \x27" ++ c.name ++ "\x27 not found") }) := by
  constructor
  · induction calls with
    | nil => exact ⟨[], rfl, .nil⟩
    | cons c cs ih =>
      obtain ⟨r, hr⟩ := execute_tool_call_total reg c (hsafe c (List.mem_cons_self c cs))
      obtain ⟨rs, hrs, hall⟩ := ih (fun c' hc' => hsafe c' (List.mem_cons_of_mem c hc'))
      refine ⟨r :: rs, ?_, .cons hr hall⟩
      simp only [run_tool_calls, hr, hrs]
      rfl
  · intro c _ hnone
    simp only [execute_tool_call, hnone]

/-- C6 witness: three calls — execute raises, tool missing, success —
run to completion with one independent result each. -/
theorem tool_calls_sequential_isolated_witness :
    (∃ results, run_tool_calls testRegistry [call_fail, call_missing, call_ok] = .ok results ∧
        List.Forall₂ (fun c r => execute_tool_call testRegistry c = .ok r)
          [call_fail, call_missing, call_ok] results) ∧
    (∀ c ∈ [call_fail, call_missing, call_ok],
        ToolRegistry.get_tool testRegistry c.name = none →
        execute_tool_call testRegistry c =
          .ok { tool_name := c.name, result := none
                error := some ("Tool \x27" ++ c.name ++ "\x27 not found") }) :=
  tool_calls_sequential_isolated testRegistry [call_fail, call_missing, call_ok]
    (by
      intro c hc t ht
      simp only [List.mem_cons, List.not_mem_nil, or_false] at hc
      rcases hc with rfl | rfl | rfl
      · rw [show ToolRegistry.get_tool testRegistry call_fail.name = some tool_fail from rfl] at ht
        cases Option.some.inj ht
        exact ⟨⟨none, rfl⟩, ⟨none, rfl⟩⟩
      · rw [show ToolRegistry.get_tool testRegistry call_missing.name = none from rfl] at ht
        exact Option.noConfusion ht
      · rw [show ToolRegistry.get_tool testRegistry call_ok.name = some tool_ok from rfl] at ht
        cases Option.some.inj ht
        exact ⟨⟨none, rfl⟩, ⟨none, rfl⟩⟩)

/-- A dict assignment makes the assigned key map to the assigned value. -/
theorem get_tool_dict_set_self (reg : ToolRegistry) (n : String) (t : BaseTool) :
    ToolRegistry.get_tool (dict_set reg n t) n = some t := by
  induction reg with
  | nil => simp [dict_set, ToolRegistry.get_tool]
  | cons p rest ih =>
    obtain ⟨k, w⟩ := p
    by_cases hk : k = n
    · simp [dict_set, hk, ToolRegistry.get_tool]
    · simp [dict_set, hk, ToolRegistry.get_tool, ih]

/-- Assigning a fresh key appends the pair at the end of the dict. -/
theorem dict_set_eq_append (reg : ToolRegistry) (n : String) (t : BaseTool)
    (h : ToolRegistry.get_tool reg n = none) :
    dict_set reg n t = reg ++ [(n, t)] := by
  induction reg with
  | nil => rfl
  | cons p rest ih =>
    obtain ⟨k, w⟩ := p
    by_cases hk : k = n
    · simp [ToolRegistry.get_tool, hk] at h
    · simp only [ToolRegistry.get_tool, if_neg hk] at h
      simp [dict_set, hk, ih h]

/-- Assigning a present key keeps the number of entries. -/
theorem dict_set_length (reg : ToolRegistry) (n : String) (t : BaseTool)
    (h : (ToolRegistry.get_tool reg n).isSome = true) :
    (dict_set reg n t).length = reg.length := by
  induction reg with
  | nil => simp [ToolRegistry.get_tool] at h
  | cons p rest ih =>
    obtain ⟨k, w⟩ := p
    by_cases hk : k = n
    · simp [dict_set, hk]
    · simp only [ToolRegistry.get_tool, if_neg hk] at h
      simp [dict_set, hk, ih h]

/-- The assigned pair is an entry of the dict after assignment. -/
theorem mem_dict_set (reg : ToolRegistry) (n : String) (t : BaseTool) :
    (n, t) ∈ dict_set reg n t := by
  induction reg with
  | nil => simp [dict_set]
  | cons p rest ih =>
    obtain ⟨k, w⟩ := p
    by_cases hk : k = n
    · simp [dict_set, hk]
    · simp only [dict_set, if_neg hk]
      exact List.mem_cons_of_mem _ ih

/-- C9 registry round-trip: after register(tool), lookup by its name
returns that tool; its schema is built from its construction arguments
and appears in the schema listing, one schema per registered tool in
registration order (a fresh name appends at the end, a present name
overwrites in place keeping the count); overwriting an existing name
flags the warning, a fresh name does not, and registration is a total
function — it never fails. -/
theorem register_round_trip (reg : ToolRegistry) (tool : BaseTool) :
    ToolRegistry.get_tool (ToolRegistry.register_tool reg tool).1 tool.name = some tool ∧
    (BaseTool.schema tool).name = tool.name ∧
    (BaseTool.schema tool).description = tool.description ∧
    (BaseTool.schema tool).parameters = tool.parameter_schema ∧
    BaseTool.schema tool ∈ get_function_declarations (ToolRegistry.register_tool reg tool).1 ∧
    (get_function_declarations (ToolRegistry.register_tool reg tool).1).length =
      ((ToolRegistry.register_tool reg tool).1).length ∧
    (ToolRegistry.get_tool reg tool.name = none →
        (ToolRegistry.register_tool reg tool).2 = false ∧
        get_function_declarations (ToolRegistry.register_tool reg tool).1 =
          get_function_declarations reg ++ [BaseTool.schema tool]) ∧
    ((ToolRegistry.get_tool reg tool.name).isSome = true →
        (ToolRegistry.register_tool reg tool).2 = true ∧
        ((ToolRegistry.register_tool reg tool).1).length = reg.length) := by
  refine ⟨get_tool_dict_set_self reg tool.name tool, rfl, rfl, rfl, ?_, ?_, ?_, ?_⟩
  · exact List.mem_map_of_mem (fun p => BaseTool.schema p.2)
      (mem_dict_set reg tool.name tool)
  · exact List.length_map _ _
  · intro h
    refine ⟨?_, ?_⟩
    · simp [ToolRegistry.register_tool, h]
    · simp [ToolRegistry.register_tool, get_function_declarations,
        dict_set_eq_append reg tool.name tool h]
  · intro h
    exact ⟨by simp [ToolRegistry.register_tool, Option.isSome_iff_exists] at h ⊢; simp [h],
      dict_set_length reg tool.name tool h⟩

/-- C9 witness: registering tool_ok into the empty registry and then
registering tool_ok2 under the same name — the first lookup round-trips
and the second registration flags the overwrite warning. -/
theorem register_round_trip_witness :
    ToolRegistry.get_tool (ToolRegistry.register_tool [] tool_ok).1 tool_ok.name =
      some tool_ok ∧
    (ToolRegistry.register_tool (ToolRegistry.register_tool [] tool_ok).1 tool_ok2).2 = true :=
  ⟨(register_round_trip [] tool_ok).1,
   ((register_round_trip (ToolRegistry.register_tool [] tool_ok).1 tool_ok2).2.2.2.2.2.2.2
      rfl).1⟩

/-- C8 counterexample: `self.history.copy()` is a shallow copy, so the
returned list aliases the manager's Content objects; mutating the parts
of an element of the returned sequence (content address 0, which the
returned list contains) changes the manager's own history. -/
theorem get_history_shallow_copy_counterexample :
    PyHeap.get_list (get_history heap0 0).1 (get_history heap0 0).2 = [0] ∧
    view_history (set_content (get_history heap0 0).1 0 mutated_system_turn) 0 ≠
      view_history heap0 0 := by
  constructor
  · rfl
  · decide

/-- C8 amended: get_history returns a fresh list object — it is not the
manager's list, it holds the same element references, and any
list-level mutation the caller performs on it leaves the manager's own
history unchanged; only the Content elements themselves are shared. -/
theorem get_history_returns_copy (h : PyHeap) (history_addr : Nat)
    (hlt : history_addr < h.lists.length) :
    (get_history h history_addr).2 ≠ history_addr ∧
    PyHeap.get_list (get_history h history_addr).1 (get_history h history_addr).2 =
      PyHeap.get_list h history_addr ∧
    (∀ v, view_history
        (set_list (get_history h history_addr).1 (get_history h history_addr).2 v)
        history_addr = view_history h history_addr) := by
  refine ⟨Nat.ne_of_gt hlt, ?_, ?_⟩
  · show (h.lists ++ [h.get_list history_addr]).getD h.lists.length [] =
      h.lists.getD history_addr []
    rw [List.getD_append_right _ _ _ _ (le_refl _)]
    simp [PyHeap.get_list]
  · intro v
    have hl : PyHeap.get_list
        (set_list (get_history h history_addr).1 (get_history h history_addr).2 v)
        history_addr = PyHeap.get_list h history_addr := by
      show ((h.lists ++ [h.get_list history_addr]).set h.lists.length v).getD
          history_addr [] = h.lists.getD history_addr []
      rw [List.getD_eq_getD_get?, List.getD_eq_getD_get?, List.get?_eq_getElem?,
        List.get?_eq_getElem?, List.getElem?_set_ne (Nat.ne_of_gt hlt),
        List.getElem?_append, if_pos hlt]
    rw [view_history, view_history, hl]
    rfl

/-- C8 amended witness: the copy guarantees evaluated on the concrete
heap heap0. -/
theorem get_history_returns_copy_witness :
    (get_history heap0 0).2 ≠ 0 ∧
    PyHeap.get_list (get_history heap0 0).1 (get_history heap0 0).2 =
      PyHeap.get_list heap0 0 ∧
    (∀ v, view_history (set_list (get_history heap0 0).1 (get_history heap0 0).2 v) 0 =
        view_history heap0 0) :=
  get_history_returns_copy heap0 0 (by decide)

/-- The invariant in explicit form: the history starts with a turn of
role system. -/
theorem system_head_iff (st : GeminiClient) :
    system_head st ↔ ∃ c t, st.history = c :: t ∧ c.role = "system" := by
  unfold system_head
  cases hh : st.history with
  | nil => simp
  | cons a t => simp

/-- Appending turns to a history whose first entry is the system turn
keeps that first entry. -/
theorem system_head_append (st : GeminiClient) (l : List Content) (h : system_head st) :
    system_head { st with history := st.history ++ l } := by
  obtain ⟨c, t, hh, hrole⟩ := (system_head_iff st).mp h
  rw [system_head_iff]
  exact ⟨c, t ++ l, by simp [hh], hrole⟩

/-- try_compress_chat preserves the system head: it either leaves the
state unchanged or rebuilds the history with the old first entry kept
at index 0. -/
theorem system_head_try_compress (be : Backend) (st : GeminiClient) (force : Bool)
    (h : system_head st) : system_head (try_compress_chat be st force).2 := by
  rcases hr : try_compress_chat be st force with ⟨info, st'⟩
  show system_head st'
  cases info with
  | some i =>
    obtain ⟨summary, _, hhist, _, _⟩ := try_compress_chat_fires_inv hr
    obtain ⟨c, t, hh, hrole⟩ := (system_head_iff st).mp h
    rw [system_head_iff]
    refine ⟨st.history.headD (Content.from_text "system" ""), _, hhist, ?_⟩
    rw [hh]
    exact hrole
  | none =>
    have hst : st' = st := by
      simp only [try_compress_chat] at hr
      split at hr
      · exact ((Prod.mk.injEq _ _ _ _).mp hr).2.symm
      · split at hr
        · exact ((Prod.mk.injEq _ _ _ _).mp hr).2.symm
        · simp at hr
    show system_head st'
    rw [hst]
    exact h

/-- The automatic compression path preserves the system head. -/
theorem system_head_check (be : Backend) (config : Config) (st : GeminiClient)
    (h : system_head st) : system_head (check_and_compress_if_needed be config st).2 := by
  simp only [check_and_compress_if_needed]
  split
  · exact h
  · split
    · exact h
    · exact system_head_try_compress be st false h

/-- send_message preserves the system head: it only appends turns and
runs the compression check. -/
theorem system_head_send (be : Backend) (config : Config) (st : GeminiClient)
    (message : String) (h : system_head st) :
    system_head (send_message be config st message).2 := by
  have h2 : system_head (check_and_compress_if_needed be config
      { st with history := st.history ++ [Content.from_text "user" message] }).2 :=
    system_head_check be config _ (system_head_append st _ h)
  simp only [send_message]
  split
  · split
    · exact h2
    · exact system_head_append _ _ (system_head_append _ _ h2)
  · exact system_head_append _ _ h2

/-- C1: every state reachable from initialisation through message
sending, compression (automatic or forced), reset and registration has
a non-empty history whose first entry has role system; since reachable
states are closed under these operations, the invariant holds both
before and after every send_message and every compression call. -/
theorem history_head_system (be : Backend) (config : Config) (st : GeminiClient)
    (h : Reachable be config st) : system_head st := by
  induction h with
  | init => rfl
  | send st message _ ih => exact system_head_send be config st message ih
  | compress st force _ ih => exact system_head_try_compress be st force ih
  | auto_compress st _ ih => exact system_head_check be config st ih
  | reset st _ _ => rfl
  | register st tool _ ih => exact ih

/-- C1 witness: the invariant evaluated at the initial state of the
concrete configuration. -/
theorem history_head_system_witness :
    system_head (GeminiClient.init testConfig) :=
  history_head_system testBackend testConfig (GeminiClient.init testConfig) Reachable.init
